import Mathlib

set_option maxHeartbeats 1000000

/-!
Shallow embedding of parts of the `ljburtz/studio` repository (a robotics
data-visualization application) and proofs about its observable behaviour.

Embedded components:
* `Studio.Benchmark` — `benchmark/src/players/BenchmarkPlayer.ts`: the
  benchmark replay player.  Its `run` loop is modelled as a pure function
  from a player value to the trace of its observable events (listener
  invocations and their resolutions, source calls, iterator pulls) together
  with the thrown error, if any.
* `Studio.GlobalVariablesTable` — the add-variable action of
  `components/GlobalVariablesTable/index.tsx`.
* `Studio.MapPanel` — `panels/Map/config.ts`: `validateCustomUrl`,
  including a faithful model of the JavaScript regex `/\x7b.+?\x7d/g`.
* `Studio.Gauge` — the Gauge panel's `settingsActionReducer`.
* `Studio.TrajectoryPlot` — the `trajectoryPlot.ts` user-node script.
-/

namespace Studio

/-- A ros-style timestamp (`Time { sec, nsec }`). -/
structure Time where
  sec : Nat
  nsec : Nat
  deriving DecidableEq

namespace Benchmark

/-- A problem reported by a source or by a message iterator item.  Only the
`message` field is read by `BenchmarkPlayer.run`. -/
structure Problem where
  message : String
  deriving DecidableEq

/-- A topic as returned by source initialization (name and datatype). -/
structure Topic where
  name : String
  datatype : String
  deriving DecidableEq

/-- A message event pulled from the iterator.  The payload is opaque to the
player and is modelled as a string. -/
structure MessageEvent where
  topic : String
  receiveTime : Time
  message : String
  sizeInBytes : Nat
  deriving DecidableEq

/-- Result of `source.initialize()`.  The source field `end` is a reserved
word in Lean and is modelled as `endTime`; `topicStats` maps a topic name to
its message count, and `datatypes` is the list of datatype names (their
definitions are opaque pass-through payloads for the player). -/
structure Initialization where
  start : Time
  endTime : Time
  topics : List Topic
  topicStats : List (String × Nat)
  datatypes : List String
  problems : List Problem

/-- An item produced by the message iterator: an optional problem plus the
message event. -/
structure IterItem where
  problem : Option Problem
  msgEvent : MessageEvent
  deriving DecidableEq

/-- Modelled from the spec: the iterable message source interface
(`IIterableSource`, declared outside the excerpt).  `initialize` resolves to
an `Initialization` value (modelled as the field `initResult`) and
`messageIterator` yields a pull-based sequence of message events for the
requested topics (spec glossary: "an asynchronous pull-based sequence of
recorded messages used by the player/benchmark harness"). -/
structure IIterableSource where
  initResult : Initialization
  messageIterator : List String → List IterItem

/-- Player presence values used by the benchmark player (the enum in the
player types module has further states, none of which occur here). -/
inductive PlayerPresence
  | INITIALIZING
  | PRESENT
  deriving DecidableEq

/-- The active playback data attached to a `present` player state. -/
structure ActiveData where
  messages : List MessageEvent
  totalBytesReceived : Nat
  startTime : Time
  endTime : Time
  currentTime : Time
  isPlaying : Bool
  speed : Nat
  lastSeekTime : Nat
  topics : List Topic
  topicStats : List (String × Nat)
  datatypes : List String
  deriving DecidableEq

/-- The player state pushed to the listener.  `progress` is always the empty
object in the benchmark player and is modelled as `Unit`. -/
structure PlayerState where
  profile : Option String
  presence : PlayerPresence
  name : String
  playerId : String
  capabilities : List String
  progress : Unit
  activeData : Option ActiveData
  deriving DecidableEq

/-- A subscription; `run` only reads the `topic` field. -/
structure SubscribePayload where
  topic : String
  deriving DecidableEq

/-- The benchmark player's fields.  The listener callback itself is
abstracted into the event trace, so only its presence is recorded. -/
structure BenchmarkPlayer where
  source : IIterableSource
  name : String
  listener : Bool
  subscriptions : List SubscribePayload

/-- Observable events of a run: a listener invocation (`listenStart`) and
the resolution of the promise it returned (`listenEnd`), the
`source.initialize()` call, the `delay(500)` suspension, the creation of the
message iterator, and each item pulled from it. -/
inductive Event
  | listenStart (state : PlayerState)
  | listenEnd (state : PlayerState)
  | initializeCall
  | delayCall (ms : Nat)
  | iteratorCall (topics : List String)
  | pull (item : IterItem)
  deriving DecidableEq

/-- The first state pushed to the listener (presence INITIALIZING, name
suffixed with "initializing source"). -/
def initializingState (name : String) : PlayerState :=
  { profile := none
    presence := PlayerPresence.INITIALIZING
    name := name ++ "\ninitializing source"
    playerId := name
    capabilities := []
    progress := ()
    activeData := none }

/-- The second state pushed to the listener, just before messages are
loaded (presence INITIALIZING, name suffixed with "getting messages"). -/
def loadingState (name : String) : PlayerState :=
  { profile := none
    presence := PlayerPresence.INITIALIZING
    name := name ++ "\ngetting messages"
    playerId := name
    capabilities := []
    progress := ()
    activeData := none }

/-- The state pushed to the listener for one played-back message event. -/
def presentState (name : String) (r : Initialization) (msgEvent : MessageEvent) :
    PlayerState :=
  { profile := none
    presence := PlayerPresence.PRESENT
    name := name
    playerId := name
    capabilities := []
    progress := ()
    activeData := some
      { messages := [msgEvent]
        totalBytesReceived := 0
        startTime := r.start
        endTime := r.endTime
        currentTime := msgEvent.receiveTime
        isPlaying := true
        speed := 1
        lastSeekTime := 1
        topics := r.topics
        topicStats := r.topicStats
        datatypes := r.datatypes } }

/-- The `for await (const item of iterator)` loading loop: pulls items in
order, throws on the first item carrying a problem, and otherwise collects
the message events in order.  Returns the pull events and the outcome. -/
def loadLoop : List IterItem → List Event × Except String (List MessageEvent)
  | [] => ([], Except.ok [])
  | item :: rest =>
    match item.problem with
    | some prob => ([Event.pull item], Except.error prob.message)
    | none =>
      let r := loadLoop rest
      (Event.pull item :: r.1, r.2.map (fun l => item.msgEvent :: l))

/-- The playback loop: one awaited listener call per loaded message event,
in order. -/
def playbackTrace (name : String) (r : Initialization) :
    List MessageEvent → List Event
  | [] => []
  | m :: rest =>
    Event.listenStart (presentState name r m) ::
      Event.listenEnd (presentState name r m) :: playbackTrace name r rest

/-- Trace prefix of a run that got past the listener invariant: first
listener call, then `source.initialize()`. -/
def initTrace (name : String) : List Event :=
  [Event.listenStart (initializingState name),
   Event.listenEnd (initializingState name),
   Event.initializeCall]

/-- Trace prefix of a run that passed initialization validation: the delay,
the second listener call and the iterator creation follow `initTrace`. -/
def loadTrace (name : String) (topics : List String) : List Event :=
  initTrace name ++
    [Event.delayCall 500,
     Event.listenStart (loadingState name),
     Event.listenEnd (loadingState name),
     Event.iteratorCall topics]

/-- `BenchmarkPlayer.run`, as the trace of observable events together with
the thrown error message, if any (`none` means the run completed).  Mirrors
`benchmark/src/players/BenchmarkPlayer.ts` lines 61-150. -/
def run (p : BenchmarkPlayer) : List Event × Option String :=
  if p.listener then
    match p.source.initResult.problems with
    | prob :: _ => (initTrace p.name, some prob.message)
    | [] =>
      let subscribeTopics := p.subscriptions.map (fun s => s.topic)
      let items := p.source.messageIterator subscribeTopics
      let load := loadLoop items
      match load.2 with
      | Except.error msg => (loadTrace p.name subscribeTopics ++ load.1, some msg)
      | Except.ok msgEvents =>
        (loadTrace p.name subscribeTopics ++ load.1 ++
          playbackTrace p.name p.source.initResult msgEvents, none)
  else ([], some "Invariant: listener is not set")

/-- `setListener`: registers the listener and immediately starts the run
loop; returns the updated player and the run's trace and outcome. -/
def setListener (p : BenchmarkPlayer) : BenchmarkPlayer × (List Event × Option String) :=
  ({ p with listener := true }, run { p with listener := true })

/-- `close` — the method body is empty (the `throw` is commented out). -/
def close (p : BenchmarkPlayer) : BenchmarkPlayer := p

/-- The states of the listener notifications of a trace, in order. -/
def listenStartStates : List Event → List PlayerState
  | [] => []
  | Event.listenStart s :: rest => s :: listenStartStates rest
  | _ :: rest => listenStartStates rest

/-- The states of the `present`-presence listener notifications of a trace. -/
def presentStates (t : List Event) : List PlayerState :=
  (listenStartStates t).filter (fun s => s.presence = PlayerPresence.PRESENT)

/-- True when every listener invocation in the trace is immediately followed
by the resolution of the promise it returned, so no further event occurs
while a listener call is in flight and no two calls ever overlap. -/
def awaited : List Event → Bool
  | [] => true
  | Event.listenStart s :: Event.listenEnd s2 :: rest =>
    if s = s2 then awaited rest else false
  | Event.listenStart _ :: _ => false
  | Event.listenEnd _ :: _ => false
  | _ :: rest => awaited rest

/-- Phase of an event: initialize = 1, load (iterator creation and pulls)
= 2, playback (`present` listener calls) = 3.  Events that occur inside a
phase transition (the initial listener call, the delay) carry no phase. -/
def eventPhase : Event → Option Nat
  | Event.initializeCall => some 1
  | Event.iteratorCall _ => some 2
  | Event.pull _ => some 2
  | Event.listenStart s =>
    if s.presence = PlayerPresence.PRESENT then some 3 else none
  | Event.listenEnd s =>
    if s.presence = PlayerPresence.PRESENT then some 3 else none
  | Event.delayCall _ => none

/-- True when the phases of the trace's events never decrease: a phase
fully completes before the next phase begins. -/
def monotonePhases : Nat → List Event → Bool
  | _, [] => true
  | cur, e :: rest =>
    match eventPhase e with
    | none => monotonePhases cur rest
    | some ph => decide (cur ≤ ph) && monotonePhases ph rest

end Benchmark

/-- Lookup in a JavaScript-object-like association list: the value stored
under the first occurrence of the key, if any. -/
def alookup {β : Type} : List (String × β) → String → Option β
  | [], _ => none
  | (k', v) :: rest, k => if k' = k then some v else alookup rest k

/-- Assignment in a JavaScript-object-like association list: replaces the
value under an existing key in place, otherwise appends the new entry. -/
def aset {β : Type} : List (String × β) → String → β → List (String × β)
  | [], k, v => [(k, v)]
  | (k', v') :: rest, k, v =>
    if k' = k then (k', v) :: rest else (k', v') :: aset rest k v

namespace GlobalVariablesTable

/-- Global variable values are opaque JSON payloads for the add action;
modelled as strings. -/
abbrev VariableValue := String

/-- The global-variables table, a JavaScript object keyed by variable
name. -/
abbrev GlobalVariables := List (String × VariableValue)

/-- Modelled from the spec: `setGlobalVariables` from the
`useGlobalVariables` hook (declared outside the excerpt) merges the given
entries into the current table — existing names get the new value, new
names are added. -/
def setGlobalVariables (gv upd : GlobalVariables) : GlobalVariables :=
  upd.foldl (fun acc kv => aset acc kv.1 kv.2) gv

/-- The add-variable button's disabled condition:
`globalVariables[""] != undefined`. -/
def addVariableDisabled (gv : GlobalVariables) : Bool :=
  (alookup gv "").isSome

/-- The add-variable action: when not disabled, clicking runs
`setGlobalVariables({ "": "" })`; a disabled button leaves the table
unchanged. -/
def addVariable (gv : GlobalVariables) : GlobalVariables :=
  if addVariableDisabled gv then gv else setGlobalVariables gv [("", "")]

/-- Number of entries of the table bearing the given name. -/
def countName (gv : GlobalVariables) (k : String) : Nat :=
  (gv.filter (fun kv => decide (kv.1 = k))).length

end GlobalVariablesTable

namespace MapPanel

/-- Line terminators, which `.` in a JavaScript regex does not match. -/
def isLineTerminator (c : Char) : Bool :=
  c == '\n' || c == '\r' || c == Char.ofNat 0x2028 || c == Char.ofNat 0x2029

/-- Scans for the first closing brace: returns the characters before it
(which must not be line terminators — they are consumed by `.+?`) and the
characters after it. -/
def scanClose : List Char → Option (List Char × List Char)
  | [] => none
  | c :: cs =>
    if c == '\x7d' then some ([], cs)
    else if isLineTerminator c then none
    else
      match scanClose cs with
      | some (body, rest) => some (c :: body, rest)
      | none => none

/-- Lazy matching of `.+?\x7d` right after an opening brace: at least one
non-terminator character, then everything up to the first closing brace. -/
def matchAfterBrace : List Char → Option (List Char × List Char)
  | [] => none
  | c :: cs =>
    if isLineTerminator c then none
    else
      match scanClose cs with
      | some (body, rest) => some (c :: body, rest)
      | none => none

/-- Fuel-bounded body of the global scan.  Each step advances in the
character list by at least one position and spends one unit of fuel, so
fuel equal to the list's length always suffices and the `0` case is never
reached from `findPlaceholders`. -/
def findPlaceholdersAux : Nat → List Char → List (List Char)
  | 0, _ => []
  | _ + 1, [] => []
  | fuel + 1, c :: cs =>
    if c == '\x7b' then
      match matchAfterBrace cs with
      | some (body, rest) =>
        ('\x7b' :: body ++ ['\x7d']) :: findPlaceholdersAux fuel rest
      | none => findPlaceholdersAux fuel cs
    else findPlaceholdersAux fuel cs

/-- Global scan of `/\x7b.+?\x7d/g`: every match of the lazy placeholder
pattern, found left to right, continuing after each match. -/
def findPlaceholders (l : List Char) : List (List Char) :=
  findPlaceholdersAux l.length l

/-- The placeholders of a url: `url.match(/\x7b.+?\x7d/g) ?? []`. -/
def urlPlaceholders (url : String) : List String :=
  (findPlaceholders url.toList).map (fun l => String.mk l)

/-- The valid placeholders `["\x7bx\x7d", "\x7by\x7d", "\x7bz\x7d"]`. -/
def validPlaceholders : List String := ["\x7bx\x7d", "\x7by\x7d", "\x7bz\x7d"]

/-- `validateCustomUrl` from `panels/Map/config.ts`: returns the error
message for the first placeholder outside the valid set, or `none`
(`undefined`) when every placeholder is valid. -/
def validateCustomUrl (url : String) : Option String :=
  match (urlPlaceholders url).find? (fun p => !(validPlaceholders.contains p)) with
  | some p => some ("Invalid placeholder " ++ p)
  | none => none

end MapPanel

namespace Gauge

/-- A settings value (JSON-like payload of an update action). -/
inductive SettingsValue
  | str (s : String)
  | num (n : Int)
  | boolean (b : Bool)
  | undef
  deriving DecidableEq

/-- The Gauge panel's `Config`, viewed as the JavaScript object the reducer
operates on (keys `path`, `minValue`, `maxValue`; `lodash.set` can write any
key). -/
abbrev ConfigObject := List (String × SettingsValue)

/-- A settings-tree action, as consumed by the reducer. -/
inductive SettingsTreeAction
  | update (path : List String) (value : SettingsValue)
  | performNodeAction (id : String) (path : List String)
  deriving DecidableEq

/-- JavaScript indexing `path[i]` followed by lodash key stringification:
an out-of-range index reads `undefined`, which lodash turns into the key
"undefined". -/
def pathIndex (path : List String) (i : Nat) : String :=
  (path.get? i).getD "undefined"

/-- The Gauge panel's `settingsActionReducer`: `perform-node-action` and an
`update` whose `path[0]` is not "general" throw; an `update` under
"general" produces (immer `produce`) a new config with
`set(draft, [path[1]], value)` applied. -/
def settingsActionReducer (prevConfig : ConfigObject) (action : SettingsTreeAction) :
    Except String ConfigObject :=
  match action with
  | SettingsTreeAction.performNodeAction id _ =>
    Except.error ("Unhandled node action: " ++ id)
  | SettingsTreeAction.update path value =>
    match path.head? with
    | some p0 =>
      if p0 = "general" then Except.ok (aset prevConfig (pathIndex path 1) value)
      else Except.error ("Unexpected payload.path[0]: " ++ p0)
    | none => Except.error ("Unexpected payload.path[0]: undefined")

end Gauge

namespace TrajectoryPlot

/-- A 3D point / vector (coordinates modelled as rationals). -/
structure Point where
  x : Rat
  y : Rat
  z : Rat
  deriving DecidableEq

/-- A quaternion orientation. -/
structure Quaternion where
  x : Rat
  y : Rat
  z : Rat
  w : Rat
  deriving DecidableEq

/-- A pose: position and orientation. -/
structure Pose where
  position : Point
  orientation : Quaternion
  deriving DecidableEq

/-- An RGBA color. -/
structure RGBA where
  r : Rat
  g : Rat
  b : Rat
  a : Rat
  deriving DecidableEq

/-- A ros duration. -/
structure Duration where
  sec : Int
  nsec : Int
  deriving DecidableEq

/-- A ros message header. -/
structure Header where
  seq : Nat
  stamp : Time
  frame_id : String
  deriving DecidableEq

/-- A `visualization_msgs/Marker` message. -/
structure Marker where
  header : Header
  ns : String
  id : Nat
  type : Nat
  action : Nat
  pose : Pose
  scale : Point
  color : RGBA
  lifetime : Duration
  frame_locked : Bool
  points : List Point
  colors : List RGBA
  text : String
  mesh_resource : String
  mesh_use_embedded_materials : Bool
  deriving DecidableEq

/-- The three declared input topics of the trajectory-plot node. -/
def inputs : List String :=
  ["/small_scout_1/rover_odometry_gt",
   "/small_scout_1/rover_odometry",
   "/small_scout_1/rover_odometry_naive"]

/-- The declared output topic. -/
def output : String := "/small_scout_1/trajectory2dplot"

/-- `create_marker`: builds the POINT marker for one position.  The source
first mutates its `position` argument (`position.z = 0`) and then stores
that same object as the single entry of `points`; the pure embedding stores
the updated copy. -/
def create_marker (position : Point) (header : Header) (ns : String) (color : RGBA) :
    Marker :=
  let position2 : Point := { position with z := 0 }
  { header := { frame_id := "world", seq := header.seq, stamp := header.stamp }
    ns := ns
    id := header.seq
    type := 8
    action := 0
    pose :=
      { position := { x := 0, y := 0, z := 0 }
        orientation := { x := 0, y := 0, z := 0, w := 1 } }
    scale := { x := 3, y := 3, z := 3 }
    color := color
    lifetime := { sec := 0, nsec := 0 }
    frame_locked := false
    points := [position2]
    colors := []
    text := ""
    mesh_resource := ""
    mesh_use_embedded_materials := false }

/-- The message shape on the ground-truth topic (pose directly under the
message). -/
structure PoseStamped where
  header : Header
  pose : Pose
  deriving DecidableEq

/-- A pose wrapped with covariance, as in `nav_msgs/Odometry`. -/
structure PoseWithCovariance where
  pose : Pose
  deriving DecidableEq

/-- The message shape on the two odometry topics (pose nested one level
deeper). -/
structure Odometry where
  header : Header
  pose : PoseWithCovariance
  deriving DecidableEq

/-- The node's input event: the TypeScript union of the three declared
topics' events — the topic determines the message shape — plus the runtime
case of an event on an undeclared topic. -/
inductive NodeEvent
  | gt (message : PoseStamped)
  | odom (message : Odometry)
  | naive (message : Odometry)
  | other (topic : String)
  deriving DecidableEq

/-- The topic of an input event. -/
def NodeEvent.topic : NodeEvent → String
  | NodeEvent.gt _ => "/small_scout_1/rover_odometry_gt"
  | NodeEvent.odom _ => "/small_scout_1/rover_odometry"
  | NodeEvent.naive _ => "/small_scout_1/rover_odometry_naive"
  | NodeEvent.other t => t

/-- Orange, assigned to the ground-truth trajectory. -/
def orangeColor : RGBA := { r := 1, g := 165 / 255, b := 0, a := 7 / 10 }

/-- Purple, assigned to the rover-odometry trajectory. -/
def purpleColor : RGBA :=
  { r := 160 / 255, g := 32 / 255, b := 240 / 255, a := 7 / 10 }

/-- Teal, assigned to the naive-odometry trajectory. -/
def tealColor : RGBA := { r := 0, g := 128 / 255, b := 128 / 255, a := 7 / 10 }

/-- The trajectory-plot node: dispatches on the event topic, extracts the
position (`message.pose.position` on the ground-truth topic,
`message.pose.pose.position` on the odometry topics) and builds the marker;
an undeclared topic yields `undefined`. -/
def node : NodeEvent → Option Marker
  | NodeEvent.gt e =>
    some (create_marker e.pose.position e.header "groundtruth" orangeColor)
  | NodeEvent.odom e =>
    some (create_marker e.pose.pose.position e.header "rover_odometry" purpleColor)
  | NodeEvent.naive e =>
    some (create_marker e.pose.pose.position e.header "rover_odometry_naive" tealColor)
  | NodeEvent.other _ => none

/-- The identity pose used by the markers. -/
def identityPose : Pose :=
  { position := { x := 0, y := 0, z := 0 }
    orientation := { x := 0, y := 0, z := 0, w := 1 } }

end TrajectoryPlot

namespace Benchmark

/-- A sample timestamp. -/
def sampleTime (n : Nat) : Time := { sec := n, nsec := 0 }

/-- A sample message event on topic "/a". -/
def sampleMsg (n : Nat) : MessageEvent :=
  { topic := "/a", receiveTime := sampleTime n, message := "payload", sizeInBytes := 8 }

/-- A sample problem-free initialization result. -/
def sampleInit : Initialization :=
  { start := sampleTime 0
    endTime := sampleTime 10
    topics := [{ name := "/a", datatype := "std_msgs/String" }]
    topicStats := [("/a", 2)]
    datatypes := ["std_msgs/String"]
    problems := [] }

/-- A sample source that initializes cleanly and yields two problem-free
messages. -/
def sampleSourceOk : IIterableSource :=
  { initResult := sampleInit
    messageIterator := fun _ =>
      [{ problem := none, msgEvent := sampleMsg 1 },
       { problem := none, msgEvent := sampleMsg 2 }] }

/-- A sample player over `sampleSourceOk`, before `setListener`. -/
def samplePlayerOk : BenchmarkPlayer :=
  { source := sampleSourceOk
    name := "bench"
    listener := false
    subscriptions := [{ topic := "/a" }] }

/-- A sample player whose source reports an initialization problem. -/
def samplePlayerBadInit : BenchmarkPlayer :=
  { source :=
      { initResult := { sampleInit with problems := [{ message := "init failed" }] }
        messageIterator := fun _ => [] }
    name := "bench"
    listener := true
    subscriptions := [] }

/-- A sample player whose iterator yields a problem on its second item. -/
def samplePlayerBadItem : BenchmarkPlayer :=
  { source :=
      { initResult := sampleInit
        messageIterator := fun _ =>
          [{ problem := none, msgEvent := sampleMsg 1 },
           { problem := some { message := "bad item" }, msgEvent := sampleMsg 2 }] }
    name := "bench"
    listener := true
    subscriptions := [{ topic := "/a" }] }

theorem loadLoop_ok (items : List IterItem) (h : ∀ i ∈ items, i.problem = none) :
    loadLoop items =
      (items.map Event.pull, Except.ok (items.map (fun i => i.msgEvent))) := by
  induction items with
  | nil => simp [loadLoop]
  | cons item rest ih =>
    have h1 : item.problem = none := h item (by simp)
    have h2 : ∀ i ∈ rest, i.problem = none := fun i hi => h i (by simp [hi])
    simp [loadLoop, h1, ih h2, Except.map]

theorem loadLoop_error (good : List IterItem) (bad : IterItem) (rest : List IterItem)
    (prob : Problem) (hg : ∀ i ∈ good, i.problem = none) (hb : bad.problem = some prob) :
    loadLoop (good ++ bad :: rest) =
      (good.map Event.pull ++ [Event.pull bad], Except.error prob.message) := by
  induction good with
  | nil => simp [loadLoop, hb]
  | cons g gs ih =>
    have h1 : g.problem = none := hg g (by simp)
    have h2 : ∀ i ∈ gs, i.problem = none := fun i hi => hg i (by simp [hi])
    simp [loadLoop, h1, ih h2, Except.map]

theorem listenStartStates_append (a b : List Event) :
    listenStartStates (a ++ b) = listenStartStates a ++ listenStartStates b := by
  induction a with
  | nil => simp [listenStartStates]
  | cons e rest ih => cases e <;> simp [listenStartStates, ih]

theorem listenStartStates_loadLoop (items : List IterItem) :
    listenStartStates (loadLoop items).1 = [] := by
  induction items with
  | nil => simp [loadLoop, listenStartStates]
  | cons item rest ih =>
    cases h : item.problem <;> simp [loadLoop, h, listenStartStates, ih]

theorem listenStartStates_playback (name : String) (r : Initialization)
    (ms : List MessageEvent) :
    listenStartStates (playbackTrace name r ms) = ms.map (presentState name r) := by
  induction ms with
  | nil => simp [playbackTrace, listenStartStates]
  | cons m rest ih => simp [playbackTrace, listenStartStates, ih]

theorem listenStartStates_loadTrace (name : String) (topics : List String) :
    listenStartStates (loadTrace name topics) =
      [initializingState name, loadingState name] := by
  simp [loadTrace, initTrace, listenStartStates]

theorem run_of_bad_init (p : BenchmarkPlayer) (hl : p.listener = true)
    (prob : Problem) (rest : List Problem)
    (hInit : p.source.initResult.problems = prob :: rest) :
    run p = (initTrace p.name, some prob.message) := by
  simp only [run, hl, if_true, hInit]

theorem run_of_ok (p : BenchmarkPlayer) (hl : p.listener = true)
    (hInit : p.source.initResult.problems = [])
    (hItems : ∀ i ∈ p.source.messageIterator (p.subscriptions.map (fun s => s.topic)),
      i.problem = none) :
    run p =
      (loadTrace p.name (p.subscriptions.map (fun s => s.topic)) ++
        (p.source.messageIterator (p.subscriptions.map (fun s => s.topic))).map Event.pull ++
        playbackTrace p.name p.source.initResult
          ((p.source.messageIterator (p.subscriptions.map (fun s => s.topic))).map
            (fun i => i.msgEvent)),
       none) := by
  simp only [run, hl, if_true, hInit, loadLoop_ok _ hItems]

theorem awaited_loadLoop_append (items : List IterItem) (t : List Event) :
    awaited ((loadLoop items).1 ++ t) = awaited t := by
  induction items with
  | nil => simp [loadLoop]
  | cons item rest ih =>
    cases h : item.problem <;> simp [loadLoop, h, awaited, ih]

theorem awaited_playback (name : String) (r : Initialization) (ms : List MessageEvent) :
    awaited (playbackTrace name r ms) = true := by
  induction ms with
  | nil => simp [playbackTrace, awaited]
  | cons m rest ih => simp [playbackTrace, awaited, ih]

theorem awaited_loadTrace_append (name : String) (topics : List String) (t : List Event) :
    awaited (loadTrace name topics ++ t) = awaited t := by
  simp [loadTrace, initTrace, awaited]

theorem monotone_loadLoop_append (items : List IterItem) (t : List Event) :
    monotonePhases 2 ((loadLoop items).1 ++ t) = monotonePhases 2 t := by
  induction items with
  | nil => simp [loadLoop]
  | cons item rest ih =>
    cases h : item.problem <;> simp [loadLoop, h, monotonePhases, eventPhase, ih]

theorem monotone_playback (name : String) (r : Initialization)
    (ms : List MessageEvent) (cur : Nat) (h : cur ≤ 3) :
    monotonePhases cur (playbackTrace name r ms) = true := by
  induction ms generalizing cur with
  | nil => simp [playbackTrace, monotonePhases]
  | cons m rest ih =>
    simp [playbackTrace, monotonePhases, eventPhase, presentState, h]
    exact ih 3 (by omega)

theorem monotone_loadTrace_append (name : String) (topics : List String) (t : List Event) :
    monotonePhases 0 (loadTrace name topics ++ t) = monotonePhases 2 t := by
  simp [loadTrace, initTrace, monotonePhases, eventPhase, initializingState, loadingState]

theorem run_of_bad_item (p : BenchmarkPlayer) (hl : p.listener = true)
    (hInit : p.source.initResult.problems = [])
    (good : List IterItem) (bad : IterItem) (rest : List IterItem) (prob : Problem)
    (hiter : p.source.messageIterator (p.subscriptions.map (fun s => s.topic)) =
      good ++ bad :: rest)
    (hg : ∀ i ∈ good, i.problem = none) (hb : bad.problem = some prob) :
    run p =
      (loadTrace p.name (p.subscriptions.map (fun s => s.topic)) ++
        (good.map Event.pull ++ [Event.pull bad]),
       some prob.message) := by
  simp only [run, hl, if_true, hInit, hiter, loadLoop_error good bad rest prob hg hb]

theorem listenStartStates_pulls (l : List IterItem) :
    listenStartStates (l.map Event.pull) = [] := by
  induction l with
  | nil => simp [listenStartStates]
  | cons i rest ih => simp [listenStartStates, ih]

theorem presentStates_append (a b : List Event) :
    presentStates (a ++ b) = presentStates a ++ presentStates b := by
  simp [presentStates, listenStartStates_append]

theorem presentStates_loadTrace (name : String) (topics : List String) :
    presentStates (loadTrace name topics) = [] := by
  simp [presentStates, listenStartStates_loadTrace, initializingState, loadingState]

theorem presentStates_pulls (l : List IterItem) :
    presentStates (l.map Event.pull) = [] := by
  simp [presentStates, listenStartStates_pulls]

theorem presentStates_playback (name : String) (r : Initialization)
    (ms : List MessageEvent) :
    presentStates (playbackTrace name r ms) = ms.map (presentState name r) := by
  simp only [presentStates, listenStartStates_playback]
  apply List.filter_eq_self.mpr
  intro s hs
  obtain ⟨m, _, rfl⟩ := List.mem_map.mp hs
  simp [presentState]

/-- C1: once `setListener` is called, the run's observable trace is exactly:
the `initializing`-presence listener notification (awaited), the
`source.initialize()` call, then — initialization having been validated
problem-free — the delay, the second listener notification (awaited), the
creation of the message iterator, the pull of every matching item into the
in-memory list, and finally one `present`-presence listener notification per
loaded message event, in load order. -/
theorem benchmark_setListener_phase_sequence (p : BenchmarkPlayer)
    (hInit : p.source.initResult.problems = [])
    (hItems : ∀ i ∈ p.source.messageIterator (p.subscriptions.map (fun s => s.topic)),
      i.problem = none) :
    (setListener p).2 =
      (loadTrace p.name (p.subscriptions.map (fun s => s.topic)) ++
        (p.source.messageIterator (p.subscriptions.map (fun s => s.topic))).map Event.pull ++
        playbackTrace p.name p.source.initResult
          ((p.source.messageIterator (p.subscriptions.map (fun s => s.topic))).map
            (fun i => i.msgEvent)),
       none) ∧
    (initializingState p.name).presence = PlayerPresence.INITIALIZING ∧
    ∀ m, (presentState p.name p.source.initResult m).presence = PlayerPresence.PRESENT := by
  refine ⟨?_, rfl, fun m => rfl⟩
  exact run_of_ok { p with listener := true } rfl hInit hItems

/-- Witness for C1 at a concrete player: two problem-free messages produce
the 13-event trace (7 setup events, 2 pulls, 2 awaited playback
notifications) and no thrown error. -/
theorem benchmark_setListener_phase_sequence_witness :
    (setListener samplePlayerOk).2.2 = none ∧
    (setListener samplePlayerOk).2.1.length = 13 := by
  have h := benchmark_setListener_phase_sequence samplePlayerOk rfl (by decide)
  constructor
  · rw [h.1]
  · rw [h.1]
    decide

/-- C2: a non-empty problems list from `source.initialize()` makes the run
throw the first problem's message right after the initialize call — before
the iterator is even created, so before any message is pulled; and an item
carrying a problem makes the run throw that problem's message at that item,
after which no event at all (in particular no listener notification beyond
the two setup notifications) is emitted: the run aborts. -/
theorem benchmark_run_error_aborts (p : BenchmarkPlayer) (hl : p.listener = true) :
    (∀ prob rest, p.source.initResult.problems = prob :: rest →
      run p = (initTrace p.name, some prob.message) ∧
      ∀ item, Event.pull item ∉ initTrace p.name) ∧
    (∀ good bad rest prob,
      p.source.messageIterator (p.subscriptions.map (fun s => s.topic)) =
        good ++ bad :: rest →
      (∀ i ∈ good, i.problem = none) → bad.problem = some prob →
      p.source.initResult.problems = [] →
      run p =
        (loadTrace p.name (p.subscriptions.map (fun s => s.topic)) ++
          (good.map Event.pull ++ [Event.pull bad]), some prob.message) ∧
      listenStartStates (run p).1 =
        [initializingState p.name, loadingState p.name]) := by
  constructor
  · intro prob rest hInit
    refine ⟨run_of_bad_init p hl prob rest hInit, ?_⟩
    intro item
    simp [initTrace]
  · intro good bad rest prob hiter hg hb hInit
    have hrun := run_of_bad_item p hl hInit good bad rest prob hiter hg hb
    refine ⟨hrun, ?_⟩
    rw [hrun]
    simp [listenStartStates_append, listenStartStates_loadTrace,
      listenStartStates_pulls, listenStartStates]

/-- Witness for C2 at concrete players: an initialization problem aborts
with "init failed" before any pull, and a problem on the second iterator
item aborts with "bad item". -/
theorem benchmark_run_error_aborts_witness :
    run samplePlayerBadInit = (initTrace "bench", some "init failed") ∧
    (run samplePlayerBadItem).2 = some "bad item" := by
  have h1 := (benchmark_run_error_aborts samplePlayerBadInit rfl).1
    { message := "init failed" } [] rfl
  have h2 := (benchmark_run_error_aborts samplePlayerBadItem rfl).2
    [{ problem := none, msgEvent := sampleMsg 1 }]
    { problem := some { message := "bad item" }, msgEvent := sampleMsg 2 }
    [] { message := "bad item" } rfl (by decide) rfl rfl
  exact ⟨h1.1, by rw [h2.1]⟩

/-- C3: with n problem-free iterator items, the loading segment of the
trace (setup plus all n pulls) contains no `present` notification, and the
playback segment that follows it consists of exactly the n
`present`-presence notifications, the i-th carrying the i-th loaded message
event as its single message with `currentTime` equal to that message's
`receiveTime`. -/
theorem benchmark_playback_after_load (p : BenchmarkPlayer) (hl : p.listener = true)
    (hInit : p.source.initResult.problems = [])
    (hItems : ∀ i ∈ p.source.messageIterator (p.subscriptions.map (fun s => s.topic)),
      i.problem = none) :
    (run p).1 =
      loadTrace p.name (p.subscriptions.map (fun s => s.topic)) ++
        (p.source.messageIterator (p.subscriptions.map (fun s => s.topic))).map Event.pull ++
        playbackTrace p.name p.source.initResult
          ((p.source.messageIterator (p.subscriptions.map (fun s => s.topic))).map
            (fun i => i.msgEvent)) ∧
    presentStates
      (loadTrace p.name (p.subscriptions.map (fun s => s.topic)) ++
        (p.source.messageIterator (p.subscriptions.map (fun s => s.topic))).map
          Event.pull) = [] ∧
    presentStates (run p).1 =
      ((p.source.messageIterator (p.subscriptions.map (fun s => s.topic))).map
        (fun i => i.msgEvent)).map (presentState p.name p.source.initResult) ∧
    ∀ m, ∃ a, (presentState p.name p.source.initResult m).activeData = some a ∧
      a.messages = [m] ∧ a.currentTime = m.receiveTime := by
  have hrun := run_of_ok p hl hInit hItems
  refine ⟨by rw [hrun], ?_, ?_, fun m => ⟨_, rfl, rfl, rfl⟩⟩
  · rw [presentStates_append, presentStates_loadTrace, presentStates_pulls]
    rfl
  · rw [hrun]
    simp only [presentStates_append, presentStates_loadTrace,
      presentStates_pulls, presentStates_playback]
    rfl

/-- Witness for C3 at a concrete player: exactly two `present`
notifications are emitted for the two loaded messages. -/
theorem benchmark_playback_after_load_witness :
    (presentStates (run { samplePlayerOk with listener := true }).1).length = 2 := by
  have h := benchmark_playback_after_load { samplePlayerOk with listener := true }
    rfl rfl (by decide)
  rw [h.2.2.1]
  decide

/-- Counterexample to C4 as stated: at a concrete player, the notification
issued after the initialization validation and before pulling messages (the
second listener notification) carries the same INITIALIZING presence as the
initial notification — there is no distinct `loading` player presence. -/
theorem benchmark_no_loading_presence_cex :
    (listenStartStates (run { samplePlayerOk with listener := true }).1).get? 1 =
      some (loadingState "bench") ∧
    (loadingState "bench").presence = PlayerPresence.INITIALIZING ∧
    (initializingState "bench").presence = PlayerPresence.INITIALIZING := by
  refine ⟨?_, rfl, rfl⟩
  decide

/-- C4 (amended): the listener notification issued after initialization
validation and before pulling messages is the second notification of the
run; it carries the INITIALIZING presence — the same presence as the
initial notification — and differs from the initial notification only in
its name, the player name suffixed with "getting messages" instead of
"initializing source". -/
theorem benchmark_loading_notification (p : BenchmarkPlayer) (hl : p.listener = true)
    (hInit : p.source.initResult.problems = []) :
    (listenStartStates (run p).1).get? 1 = some (loadingState p.name) ∧
    (loadingState p.name).presence = PlayerPresence.INITIALIZING ∧
    (loadingState p.name).name = p.name ++ "\ngetting messages" ∧
    loadingState p.name ≠ initializingState p.name := by
  refine ⟨?_, rfl, rfl, ?_⟩
  · simp only [run, hl, if_true, hInit]
    split
    · simp [listenStartStates_append, listenStartStates_loadTrace,
        listenStartStates_loadLoop]
    · simp [listenStartStates_append, listenStartStates_loadTrace,
        listenStartStates_loadLoop, listenStartStates_playback]
  · intro h
    have hname := congrArg PlayerState.name h
    simp only [loadingState, initializingState] at hname
    have hlen := congrArg String.length hname
    rw [String.length_append, String.length_append] at hlen
    have e1 : ("\ngetting messages" : String).length = 17 := rfl
    have e2 : ("\ninitializing source" : String).length = 20 := rfl
    rw [e1, e2] at hlen
    omega

/-- Witness for the amended C4 at a concrete player. -/
theorem benchmark_loading_notification_witness :
    (listenStartStates (run { samplePlayerOk with listener := true }).1).get? 1 =
      some (loadingState "bench") :=
  (benchmark_loading_notification { samplePlayerOk with listener := true } rfl rfl).1

/-- C5: every run trace is strictly sequential — each listener invocation
is immediately followed by the resolution of the promise it returned before
any further event occurs (so no two listener calls are ever in flight), and
the phases initialize (1), load (2) and playback (3) occur in monotone
order, each completing before the next begins. -/
theorem benchmark_run_sequential (p : BenchmarkPlayer) :
    awaited (run p).1 = true ∧ monotonePhases 0 (run p).1 = true := by
  by_cases hl : p.listener = true
  · cases hInit : p.source.initResult.problems with
    | cons prob rest =>
      rw [run_of_bad_init p hl prob rest hInit]
      constructor
      · simp [initTrace, awaited]
      · simp [initTrace, monotonePhases, eventPhase, initializingState]
    | nil =>
      simp only [run, hl, if_true, hInit]
      split
      · constructor
        · rw [awaited_loadTrace_append]
          have h2 := awaited_loadLoop_append
            (p.source.messageIterator (p.subscriptions.map (fun s => s.topic))) []
          simpa [awaited] using h2
        · rw [monotone_loadTrace_append]
          have h2 := monotone_loadLoop_append
            (p.source.messageIterator (p.subscriptions.map (fun s => s.topic))) []
          simpa [monotonePhases] using h2
      · constructor
        · rw [List.append_assoc, awaited_loadTrace_append, awaited_loadLoop_append,
            awaited_playback]
        · rw [List.append_assoc, monotone_loadTrace_append, monotone_loadLoop_append]
          exact monotone_playback _ _ _ 2 (by omega)
  · have hfalse : p.listener = false := by
      revert hl; cases p.listener <;> simp
    simp [run, hfalse, awaited, monotonePhases]

/-- C6: `close` is a no-op — it returns the player with every field
(source, name, listener, subscriptions) unchanged and cannot throw. -/
theorem benchmark_close_noop (p : BenchmarkPlayer) : close p = p := rfl

end Benchmark

theorem alookup_aset_self {β : Type} (m : List (String × β)) (k : String) (v : β) :
    alookup (aset m k v) k = some v := by
  induction m with
  | nil => simp [aset, alookup]
  | cons kv rest ih =>
    by_cases h : kv.1 = k
    · simp [aset, alookup, h]
    · cases kv with
      | mk k' v' =>
        simp only at h
        simp [aset, alookup, h, ih]

theorem alookup_aset_ne {β : Type} (m : List (String × β)) (k : String) (v : β)
    (k' : String) (h : k' ≠ k) :
    alookup (aset m k v) k' = alookup m k' := by
  induction m with
  | nil => simp [aset, alookup, Ne.symm h]
  | cons kv rest ih =>
    cases kv with
    | mk k0 v0 =>
      by_cases h0 : k0 = k
      · subst h0
        simp [aset, alookup, Ne.symm h]
      · by_cases h1 : k0 = k'
        · subst h1
          simp [aset, alookup, h0]
        · simp [aset, alookup, h0, h1, ih]

theorem aset_of_alookup_none {β : Type} (m : List (String × β)) (k : String) (v : β)
    (h : alookup m k = none) : aset m k v = m ++ [(k, v)] := by
  induction m with
  | nil => simp [aset]
  | cons kv rest ih =>
    cases kv with
    | mk k0 v0 =>
      by_cases h0 : k0 = k
      · simp [alookup, h0] at h
      · simp only [alookup, h0, if_false] at h
        simp [aset, h0, ih h]

namespace GlobalVariablesTable

theorem countName_of_alookup_none (gv : GlobalVariables) (k : String)
    (h : alookup gv k = none) : countName gv k = 0 := by
  induction gv with
  | nil => simp [countName]
  | cons kv rest ih =>
    cases kv with
    | mk k0 v0 =>
      by_cases h0 : k0 = k
      · simp [alookup, h0] at h
      · simp only [alookup, h0, if_false] at h
        simp [countName, h0] at ih ⊢
        exact ih h

theorem countName_append (a b : GlobalVariables) (k : String) :
    countName (a ++ b) k = countName a k + countName b k := by
  simp [countName, List.filter_append]

/-- C7: the add-variable action cannot create a second empty-named entry:
if the table holds at most one variable with the empty name, it still does
after the add action, and when an empty-named variable is already defined
the action is disabled and leaves the table unchanged. -/
theorem globalVariables_single_empty_name (gv : GlobalVariables)
    (h : countName gv "" ≤ 1) :
    countName (addVariable gv) "" ≤ 1 ∧
    (addVariableDisabled gv = true → addVariable gv = gv) := by
  constructor
  · cases hlk : alookup gv "" with
    | some v =>
      have hd : addVariableDisabled gv = true := by
        simp [addVariableDisabled, hlk]
      simp [addVariable, hd]
      exact h
    | none =>
      have hd : addVariableDisabled gv = false := by
        simp [addVariableDisabled, hlk]
      have hset : setGlobalVariables gv [("", "")] = gv ++ [("", "")] := by
        simp [setGlobalVariables]
        exact aset_of_alookup_none gv "" "" hlk
      rw [addVariable, hd]
      simp only [Bool.false_eq_true, if_false]
      rw [hset, countName_append, countName_of_alookup_none gv "" hlk]
      decide
  · intro hd
    simp [addVariable, hd]

/-- Witness for C7 at a concrete table with no empty-named variable: after
the add action at most one empty-named entry exists. -/
theorem globalVariables_single_empty_name_witness :
    countName (addVariable [("a", "1")]) "" ≤ 1 :=
  (globalVariables_single_empty_name [("a", "1")] (by decide)).1

end GlobalVariablesTable

namespace MapPanel

theorem find_append_first {α : Type} (pre : List α) (x : α) (post : List α)
    (pred : α → Bool) (hpre : ∀ q ∈ pre, pred q = false) (hx : pred x = true) :
    (pre ++ x :: post).find? pred = some x := by
  induction pre with
  | nil => simp [List.find?, hx]
  | cons q qs ih =>
    have hq : pred q = false := hpre q (by simp)
    have hqs : ∀ q2 ∈ qs, pred q2 = false := fun q2 h2 => hpre q2 (by simp [h2])
    simp [List.find?, hq, ih hqs]

theorem find_none_of_all {α : Type} (l : List α) (pred : α → Bool)
    (h : ∀ x ∈ l, pred x = false) : l.find? pred = none := by
  induction l with
  | nil => rfl
  | cons x rest ih =>
    have hx : pred x = false := h x (by simp)
    have hrest : ∀ q ∈ rest, pred q = false := fun q hq => h q (by simp [hq])
    simp [List.find?, hx, ih hrest]

theorem all_of_find_none {α : Type} (l : List α) (pred : α → Bool)
    (h : l.find? pred = none) : ∀ x ∈ l, pred x = false := by
  induction l with
  | nil => intro x hx; simp at hx
  | cons y rest ih =>
    intro x hx
    cases hy : pred y with
    | true => simp [List.find?, hy] at h
    | false =>
      simp only [List.find?, hy] at h
      rcases List.mem_cons.mp hx with hx1 | hx2
      · rw [hx1]; exact hy
      · exact ih h x hx2

theorem not_contains_false_iff (q : String) :
    ((!(validPlaceholders.contains q)) = false ↔ q ∈ validPlaceholders) ∧
    ((!(validPlaceholders.contains q)) = true ↔ q ∉ validPlaceholders) := by
  constructor <;> simp

theorem validateCustomUrl_eq (url : String) :
    validateCustomUrl url =
      match (urlPlaceholders url).find? (fun p => !(validPlaceholders.contains p)) with
      | some p => some ("Invalid placeholder " ++ p)
      | none => none := rfl

/-- C8: `validateCustomUrl url` returns `undefined` exactly when every
placeholder of `url` (every match of the global lazy regex for
brace-delimited text) is one of the x/y/z placeholders; otherwise it
returns an error naming the first placeholder outside that set; a url
without placeholders always validates. -/
theorem validateCustomUrl_spec (url : String) :
    (validateCustomUrl url = none ↔
      ∀ p ∈ urlPlaceholders url, p ∈ validPlaceholders) ∧
    (∀ pre ph post, urlPlaceholders url = pre ++ ph :: post →
      (∀ q ∈ pre, q ∈ validPlaceholders) → ph ∉ validPlaceholders →
      validateCustomUrl url = some ("Invalid placeholder " ++ ph)) ∧
    (urlPlaceholders url = [] → validateCustomUrl url = none) := by
  refine ⟨?_, ?_, ?_⟩
  · constructor
    · intro h p hp
      cases hfind : (urlPlaceholders url).find?
          (fun p2 => !(validPlaceholders.contains p2)) with
      | some q =>
        rw [validateCustomUrl_eq, hfind] at h
        exact Option.noConfusion h
      | none =>
        have h2 := all_of_find_none _ _ hfind p hp
        exact (not_contains_false_iff p).1.mp h2
    · intro h
      rw [validateCustomUrl_eq]
      have hfind : (urlPlaceholders url).find?
          (fun p2 => !(validPlaceholders.contains p2)) = none := by
        apply find_none_of_all
        intro q hq
        exact (not_contains_false_iff q).1.mpr (h q hq)
      rw [hfind]
  · intro pre ph post heq hpre hph
    rw [validateCustomUrl_eq]
    have hfind : (urlPlaceholders url).find?
        (fun p2 => !(validPlaceholders.contains p2)) = some ph := by
      rw [heq]
      apply find_append_first
      · intro q hq
        exact (not_contains_false_iff q).1.mpr (hpre q hq)
      · exact (not_contains_false_iff ph).2.mpr hph
    rw [hfind]
  · intro h
    rw [validateCustomUrl_eq, h]
    rfl

/-- Witness for C8 at concrete urls: a url containing an undeclared
placeholder is rejected with that placeholder's name, and the claim's
hypotheses are satisfiable. -/
theorem validateCustomUrl_spec_witness :
    validateCustomUrl "tile/\x7bx\x7d/\x7bq\x7d" =
      some ("Invalid placeholder " ++ "\x7bq\x7d") :=
  (validateCustomUrl_spec "tile/\x7bx\x7d/\x7bq\x7d").2.1
    ["\x7bx\x7d"] "\x7bq\x7d" [] (by decide) (by decide) (by decide)

end MapPanel

namespace Gauge

/-- A sample Gauge config object. -/
def sampleGaugeConfig : ConfigObject :=
  [("path", SettingsValue.str ""),
   ("minValue", SettingsValue.num 0),
   ("maxValue", SettingsValue.num 1)]

/-- C9: the Gauge settings reducer throws on every `perform-node-action`
and on every `update` whose `path[0]` is not "general"; an `update` under
"general" returns a new config in which exactly the key named by `path[1]`
holds the new value and every other key is unchanged. -/
theorem settingsActionReducer_spec (cfg : ConfigObject) :
    (∀ id path, settingsActionReducer cfg (SettingsTreeAction.performNodeAction id path) =
      Except.error ("Unhandled node action: " ++ id)) ∧
    (∀ path value, path.head? ≠ some "general" →
      ∃ msg, settingsActionReducer cfg (SettingsTreeAction.update path value) =
        Except.error msg) ∧
    (∀ path value, path.head? = some "general" →
      settingsActionReducer cfg (SettingsTreeAction.update path value) =
        Except.ok (aset cfg (pathIndex path 1) value) ∧
      alookup (aset cfg (pathIndex path 1) value) (pathIndex path 1) = some value ∧
      ∀ k, k ≠ pathIndex path 1 →
        alookup (aset cfg (pathIndex path 1) value) k = alookup cfg k) := by
  refine ⟨fun id path => rfl, ?_, ?_⟩
  · intro path value h
    cases path with
    | nil => exact ⟨"Unexpected payload.path[0]: undefined", rfl⟩
    | cons p0 rest =>
      have hp : p0 ≠ "general" := by
        intro he
        exact h (by simp [List.head?, he])
      refine ⟨"Unexpected payload.path[0]: " ++ p0, ?_⟩
      simp [settingsActionReducer, List.head?, hp]
  · intro path value h
    cases path with
    | nil => simp [List.head?] at h
    | cons p0 rest =>
      have hp : p0 = "general" := by
        simpa [List.head?] using h
      subst hp
      refine ⟨by simp [settingsActionReducer, List.head?], ?_, ?_⟩
      · exact alookup_aset_self cfg (pathIndex ("general" :: rest) 1) value
      · intro k hk
        exact alookup_aset_ne cfg (pathIndex ("general" :: rest) 1) value k hk

/-- Witness for C9 at a concrete config and actions: updating
["general", "minValue"] rewrites exactly the `minValue` key, and a
node action throws. -/
theorem settingsActionReducer_spec_witness :
    settingsActionReducer sampleGaugeConfig
      (SettingsTreeAction.update ["general", "minValue"] (SettingsValue.num 5)) =
      Except.ok
        [("path", SettingsValue.str ""),
         ("minValue", SettingsValue.num 5),
         ("maxValue", SettingsValue.num 1)] ∧
    settingsActionReducer sampleGaugeConfig
      (SettingsTreeAction.performNodeAction "reset" []) =
      Except.error ("Unhandled node action: " ++ "reset") := by
  have h := settingsActionReducer_spec sampleGaugeConfig
  constructor
  · have h2 := (h.2.2 ["general", "minValue"] (SettingsValue.num 5) rfl).1
    rw [h2]
    rfl
  · exact h.1 "reset" []

end Gauge

namespace TrajectoryPlot

/-- A sample header. -/
def sampleHeader : Header :=
  { seq := 7, stamp := { sec := 1, nsec := 2 }, frame_id := "odom" }

/-- A sample ground-truth event. -/
def sampleGtEvent : NodeEvent :=
  NodeEvent.gt
    { header := sampleHeader
      pose :=
        { position := { x := 1, y := 2, z := 3 }
          orientation := { x := 0, y := 0, z := 0, w := 1 } } }

/-- C10: the node returns `undefined` on any event whose topic is none of
the three declared input topics; on each declared topic it returns a POINT
marker (type 8, action 0, frame "world", identity pose, zero lifetime)
whose id and header seq equal the event header's seq and whose single point
is the extracted position with its z coordinate set to 0. -/
theorem trajectoryPlot_node_spec (e : NodeEvent) :
    (e.topic ∉ inputs → node e = none) ∧
    (∀ m, e = NodeEvent.gt m → ∃ mk, node e = some mk ∧
      mk.type = 8 ∧ mk.action = 0 ∧ mk.header.frame_id = "world" ∧
      mk.id = m.header.seq ∧ mk.header.seq = m.header.seq ∧
      mk.pose = identityPose ∧ mk.lifetime = { sec := 0, nsec := 0 } ∧
      mk.points = [{ m.pose.position with z := 0 }]) ∧
    (∀ m, e = NodeEvent.odom m → ∃ mk, node e = some mk ∧
      mk.type = 8 ∧ mk.action = 0 ∧ mk.header.frame_id = "world" ∧
      mk.id = m.header.seq ∧ mk.header.seq = m.header.seq ∧
      mk.pose = identityPose ∧ mk.lifetime = { sec := 0, nsec := 0 } ∧
      mk.points = [{ m.pose.pose.position with z := 0 }]) ∧
    (∀ m, e = NodeEvent.naive m → ∃ mk, node e = some mk ∧
      mk.type = 8 ∧ mk.action = 0 ∧ mk.header.frame_id = "world" ∧
      mk.id = m.header.seq ∧ mk.header.seq = m.header.seq ∧
      mk.pose = identityPose ∧ mk.lifetime = { sec := 0, nsec := 0 } ∧
      mk.points = [{ m.pose.pose.position with z := 0 }]) := by
  refine ⟨?_, ?_, ?_, ?_⟩
  · intro h
    cases e with
    | gt m => exact absurd (by simp [NodeEvent.topic, inputs]) h
    | odom m => exact absurd (by simp [NodeEvent.topic, inputs]) h
    | naive m => exact absurd (by simp [NodeEvent.topic, inputs]) h
    | other t => rfl
  · intro m he
    subst he
    exact ⟨_, rfl, rfl, rfl, rfl, rfl, rfl, rfl, rfl, rfl⟩
  · intro m he
    subst he
    exact ⟨_, rfl, rfl, rfl, rfl, rfl, rfl, rfl, rfl, rfl⟩
  · intro m he
    subst he
    exact ⟨_, rfl, rfl, rfl, rfl, rfl, rfl, rfl, rfl, rfl⟩

/-- Witness for C10 at concrete events: an undeclared topic yields
`undefined`, and a ground-truth event yields a marker whose single point
has its z coordinate zeroed. -/
theorem trajectoryPlot_node_spec_witness :
    node (NodeEvent.other "/tf") = none ∧
    ∃ mk, node sampleGtEvent = some mk ∧
      mk.points = [{ x := 1, y := 2, z := 0 }] := by
  constructor
  · exact (trajectoryPlot_node_spec (NodeEvent.other "/tf")).1 (by decide)
  · obtain ⟨mk, h1, _, _, _, _, _, _, _, h9⟩ :=
      (trajectoryPlot_node_spec sampleGtEvent).2.1 _ rfl
    exact ⟨mk, h1, by rw [h9]⟩

end TrajectoryPlot

end Studio
